import Mathlib

/-!
Shallow embedding of `src/lambda_function.py` (an AWS Lambda@Edge image
derivative handler) and verification of the frozen claims about it.

Modelling conventions:
* Python `float` arithmetic is modelled by exact rational arithmetic (`ℚ`).
  All midpoint/half computations in the source are halves of integers, which
  doubles represent exactly, so this is faithful where the claims look.
* Python `int(x)` on a float truncates toward zero; `round(x)` rounds half to
  even.  Both are modelled explicitly below.
* The object store (boto3 S3 client) and the PIL image library are external
  collaborators; they are modelled as explicit function records passed to the
  handler, with error outcomes mirroring the exceptions the source handles
  (`ClientError`, decode errors, `ZeroDivisionError`, `UnicodeDecodeError`).
* Python strings are Lean `String`s; the source only splits/joins on the
  single-character separators `&`, `=`, `/`, which is modelled by an explicit
  single-character splitter with Python `str.split(sep)` semantics.
-/

deriving instance DecidableEq for Except

namespace LambdaFn

/-! ### Python numeric primitives -/

/-- Model of Python `int(x)` applied to a float: truncation toward zero. -/
def pyInt (x : ℚ) : ℤ := if x < 0 then -⌊-x⌋ else ⌊x⌋

/-- Model of Python `round(x)`: round half to even (banker's rounding). -/
def pyRound (x : ℚ) : ℤ :=
  let f : ℤ := ⌊x⌋
  let r : ℚ := x - (f : ℚ)
  if r < 1/2 then f
  else if 1/2 < r then f + 1
  else if f % 2 = 0 then f else f + 1

/-- Model of Python `int(s)` on a decimal digit string (no sign). -/
def digitsToNat (acc : ℕ) : List Char → Option ℕ
  | [] => some acc
  | c :: cs => if c.isDigit then digitsToNat (acc * 10 + (c.toNat - 48)) cs else none

/-- Model of Python `int(s)` on a string: optional sign followed by a nonempty
run of decimal digits.  (Python additionally tolerates surrounding whitespace
and `_` digit separators; those forms are irrelevant to the claims and are not
modelled.)  `none` models a raised `ValueError`. -/
def pyParseInt (s : String) : Option ℤ :=
  match s.data with
  | [] => none
  | '-' :: rest =>
    match rest with
    | [] => none
    | _ => (digitsToNat 0 rest).map (fun n => -(n : ℤ))
  | '+' :: rest =>
    match rest with
    | [] => none
    | _ => (digitsToNat 0 rest).map (fun n => (n : ℤ))
  | l => (digitsToNat 0 l).map (fun n => (n : ℤ))

/-! ### Python string primitives used by the source -/

/-- Python `str.split(sep)` for a single-character separator, on char lists:
`"" ↦ [""]`, `"a&b" ↦ ["a","b"]`, `"&&" ↦ ["","",""]`. -/
def splitChar (c : Char) : List Char → List (List Char)
  | [] => [[]]
  | a :: rest =>
    let r := splitChar c rest
    if a = c then [] :: r
    else
      match r with
      | [] => [[a]]
      | g :: gs => (a :: g) :: gs

/-- Python `str.split(sep)` for a single-character separator, on strings. -/
def pySplit (c : Char) (s : String) : List String :=
  (splitChar c s.data).map String.mk

/-- Python `sep.join(strs)` for a single-character separator. -/
def pyJoin (c : Char) : List String → String
  | [] => ""
  | [s] => s
  | s :: rest => s ++ String.singleton c ++ pyJoin c rest

/-- Python `s[1:]`: drop the first character. -/
def pyDrop1 (s : String) : String := String.mk s.data.tail

/-- Hex digit test for the percent decoder. -/
def isHexDigit (c : Char) : Bool :=
  c.isDigit || ('a' ≤ c && c ≤ 'f') || ('A' ≤ c && c ≤ 'F')

/-- Hex digit value for the percent decoder. -/
def hexVal (c : Char) : ℕ :=
  if c.isDigit then c.toNat - 48
  else if 'a' ≤ c && c ≤ 'f' then c.toNat - 87
  else c.toNat - 55

/-- Model of `urllib.parse.unquote`: decode `%HH` escapes, leaving a `%` that
is not followed by two hex digits untouched.  (Python additionally reassembles
multi-byte UTF-8 sequences from consecutive escapes; the claims never depend
on non-ASCII escapes, so each escaped byte is decoded to the code point of the
same value.) -/
def unquoteChars : List Char → List Char
  | [] => []
  | '%' :: a :: b :: rest =>
    if isHexDigit a && isHexDigit b then
      Char.ofNat (16 * hexVal a + hexVal b) :: unquoteChars rest
    else '%' :: unquoteChars (a :: b :: rest)
  | '%' :: rest => '%' :: unquoteChars rest
  | c :: rest => c :: unquoteChars rest
termination_by l => l.length
decreasing_by all_goals simp [List.length] <;> omega

/-- Model of `urllib.parse.unquote` on strings. -/
def pyUnquote (s : String) : String := String.mk (unquoteChars s.data)

/-! ### base64 (Python `base64.standard_b64encode`) -/

/-- The standard base64 alphabet. -/
def b64Table : List Char :=
  "ABCDEFGHIJKLMNOPQRSTUVWXYZabcdefghijklmnopqrstuvwxyz0123456789+/".data

/-- Character for a 6-bit group. -/
def b64Char (n : ℕ) : Char := b64Table.getD (n % 64) 'A'

/-- Encode a byte list (bytes are naturals below 256) in standard base64 with
padding, three input bytes at a time. -/
def b64Chunks : List ℕ → List Char
  | [] => []
  | [b1] =>
    [b64Char (b1 / 4), b64Char (b1 % 4 * 16), '=', '=']
  | [b1, b2] =>
    [b64Char (b1 / 4), b64Char (b1 % 4 * 16 + b2 / 16), b64Char (b2 % 16 * 4), '=']
  | b1 :: b2 :: b3 :: rest =>
    b64Char (b1 / 4) :: b64Char (b1 % 4 * 16 + b2 / 16) ::
      b64Char (b2 % 16 * 4 + b3 / 64) :: b64Char (b3 % 64) :: b64Chunks rest

/-- Model of `base64.standard_b64encode(data).decode()`. -/
def base64Encode (bs : List ℕ) : String := String.mk (b64Chunks bs)

/-! ### Data model -/

/-- The transform parameters accumulated by the parsing loop
(`target_width`, `target_height`, `target_quality`, `target_size`,
lines 31-34 of the source). -/
structure TransformSpec where
  targetWidth : ℤ
  targetHeight : ℤ
  targetQuality : ℤ
  targetSize : Option String
deriving DecidableEq

/-- Initial parser state: `width = 0`, `height = 0`, `quality = 75`,
`size = None`. -/
def initSpec : TransformSpec := ⟨0, 0, 75, none⟩

/-- Exceptions the source raises or re-raises.  `valueError` covers both the
tuple-unpacking failure in the query loop and `int()` parse failures (Python
raises `ValueError` for both, so the model need not distinguish them). -/
inductive PyErr where
  | valueError
  | clientError (code : String)
  | unicodeDecodeError
  | imageOpenError
  | zeroDivisionError
deriving DecidableEq

/-! ### Transform Parameter Parser (source lines 31-61) -/

/-- Quality clamp from lines 48-51: values above 95 saturate to 95, values
below 1 saturate to 1. -/
def pyClamp (n : ℤ) : ℤ := if n > 95 then 95 else if n < 1 then 1 else n

/-- One iteration of the `for k, v in queries` loop (lines 41-53): recognized
keys `w`, `h`, `q`, `s` overwrite the stored value; unrecognized keys are
ignored; `int(v)` failure raises `ValueError`. -/
def applyPair (st : TransformSpec) (kv : String × String) : Except PyErr TransformSpec :=
  if kv.1 = "w" then
    match pyParseInt kv.2 with
    | some n => .ok { st with targetWidth := n }
    | none => .error .valueError
  else if kv.1 = "h" then
    match pyParseInt kv.2 with
    | some n => .ok { st with targetHeight := n }
    | none => .error .valueError
  else if kv.1 = "q" then
    match pyParseInt kv.2 with
    | some n => .ok { st with targetQuality := pyClamp n }
    | none => .error .valueError
  else if kv.1 = "s" then .ok { st with targetSize := some kv.2 }
  else .ok st

/-- The list comprehension of lines 38-40 combined with the tuple unpacking of
line 41: each `&`-separated piece is split on every `=`; a piece that does not
split into exactly two parts raises `ValueError` when unpacked into `k, v`.
(Python builds all tuples first and fails at the first bad unpacking inside
the loop; since both failure modes are the same `ValueError`, erroring at
pair-construction time is observationally identical.) -/
def toPair (p : String) : Except PyErr (String × String) :=
  match pySplit '=' p with
  | [k, v] => .ok (k, v)
  | _ => .error .valueError

/-- Unpack every piece, left to right, stopping at the first failure. -/
def buildPairs : List String → Except PyErr (List (String × String))
  | [] => .ok []
  | p :: ps =>
    match toPair p with
    | .ok kv =>
      match buildPairs ps with
      | .ok kvs => .ok (kv :: kvs)
      | .error e => .error e
    | .error e => .error e

/-- All pieces of the query string, as unpacked pairs. -/
def splitPairs (qs : String) : Except PyErr (List (String × String)) :=
  buildPairs (pySplit '&' qs)

/-- The parsing loop over the pair list. -/
def foldPairs (st : TransformSpec) : List (String × String) → Except PyErr TransformSpec
  | [] => .ok st
  | p :: ps =>
    match applyPair st p with
    | .ok st' => foldPairs st' ps
    | .error e => .error e

/-- Lines 37-53: an empty query string skips the loop entirely, otherwise the
pairs are built and folded. -/
def parseSpec (qs : String) : Except PyErr TransformSpec :=
  if qs = "" then .ok initSpec
  else
    match splitPairs qs with
    | .ok ps => foldPairs initSpec ps
    | .error e => .error e

/-- Lines 55-61: when both width and height are still 0 and a size token was
supplied, the preset table `{s:200, m:400, l:600}` sets a width-only target
(an unknown token changes nothing). -/
def applyPreset (st : TransformSpec) : TransformSpec :=
  if st.targetWidth = 0 ∧ st.targetHeight = 0 ∧ st.targetSize.isSome then
    match st.targetSize with
    | some "s" => { st with targetWidth := 200 }
    | some "m" => { st with targetWidth := 400 }
    | some "l" => { st with targetWidth := 600 }
    | _ => st
  else st

/-! ### Derived Key Builder (source lines 70-84) -/

/-- Lines 70-75: the transform tag, built as `q<Q>_`, then prefixed by
`w<W>` when width is non-zero, then prefixed by `h<H>` when height is
non-zero. -/
def tagOf (st : TransformSpec) : String :=
  let t := "q" ++ toString st.targetQuality ++ "_"
  let t := if st.targetWidth ≠ 0 then "w" ++ toString st.targetWidth ++ t else t
  if st.targetHeight ≠ 0 then "h" ++ toString st.targetHeight ++ t else t

/-- Python `lst[-1] = f(lst[-1])` on a split result (the split of a string is
never empty, so the `[]` case is unreachable). -/
def modifyLast (f : String → String) : List String → List String
  | [] => []
  | [a] => [f a]
  | a :: rest => a :: modifyLast f rest

/-- Lines 77-84: split the original key on `/`, prepend the tag to the last
segment, rejoin with `/`. -/
def derivedKey (origKey : String) (st : TransformSpec) : String :=
  pyJoin '/' (modifyLast (fun s => tagOf st ++ s) (pySplit '/' origKey))

/-! ### Image Transformer arithmetic (source lines 127-167) -/

/-- Lines 127-133: per-axis shrink quotients, their `max`, capped at `1.0`.
This models `transform_ratio` (rational arithmetic in place of float
arithmetic). -/
def transformScale (tw th w h : ℤ) : ℚ :=
  let wq : ℚ := (tw : ℚ) / (w : ℚ)
  let hq : ℚ := (th : ℚ) / (h : ℚ)
  let r := max wq hq
  if r > 1 then 1 else r

/-- Lines 146-166: the center-crop window of a `rw × rh` resized image for
final targets `tw × th`: symmetric window around the midpoint, rounded to
integers, low bounds clamped to 0 when negative, high bounds clamped to
`dimension - 1` when at or past the dimension.  Returns
`(start_x, start_y, end_x, end_y)`. -/
def cropWindow (rw rh tw th : ℤ) : ℤ × ℤ × ℤ × ℤ :=
  let midX : ℚ := (rw : ℚ) / 2
  let midY : ℚ := (rh : ℚ) / 2
  let diffX : ℚ := (tw : ℚ) / 2
  let diffY : ℚ := (th : ℚ) / 2
  let startX := pyRound (midX - diffX)
  let startX := if startX < 0 then 0 else startX
  let startY := pyRound (midY - diffY)
  let startY := if startY < 0 then 0 else startY
  let endX := pyRound (midX + diffX)
  let endX := if endX ≥ rw then rw - 1 else endX
  let endY := pyRound (midY + diffY)
  let endY := if endY ≥ rh then rh - 1 else endY
  (startX, startY, endX, endY)

/-! ### External collaborators: the object store and PIL -/

/-- Outcome of `s3_client.head_object`: success, or a raised `ClientError`
carrying its error code.  (Both a missing key and a transport failure such as
`AccessDenied` surface as `ClientError`; the code string distinguishes
them.) -/
inductive HeadOutcome where
  | found
  | clientError (code : String)
deriving DecidableEq

/-- Outcome of `s3_client.get_object`: the object's content type and body
bytes, or a raised `ClientError`. -/
inductive GetOutcome where
  | found (contentType : String) (body : List ℕ)
  | clientError (code : String)
deriving DecidableEq

/-- The S3 client, as the deterministic per-key behaviour observed by one
invocation.  `putObject` returns `none` on success or `some code` for a
raised `ClientError`. -/
structure StoreModel where
  headObject : String → HeadOutcome
  getObject : String → GetOutcome
  putObject : String → String → List ℕ → Option String

/-- The PIL/codec boundary.  `openImage` models `Image.open` plus `.size` and
`.format`: decoded `(width, height, format)`, or `none` for a raised decode
error.  `encode` models `resize`/`crop`/`save`: a deterministic function of
the source bytes, the resized dimensions, the crop box, the format and the
quality, returning the encoded output bytes.  `decodeUtf8` models
`bytes.decode("utf-8")` (`none` = raised `UnicodeDecodeError`). -/
structure PILModel where
  openImage : List ℕ → Option (ℤ × ℤ × String)
  encode : List ℕ → ℤ × ℤ → ℤ × ℤ × ℤ × ℤ → String → ℤ → List ℕ
  decodeUtf8 : List ℕ → Option String

/-! ### Requests, responses and effects -/

/-- The CloudFront request record consumed by the handler: `uri`,
`querystring` and `headers` (a dict of lists of key/value pairs). -/
structure Request where
  uri : String
  querystring : String
  headers : List (String × List (String × String))
deriving DecidableEq

/-- The event envelope: the list of `Records` (each record's `cf.request`). -/
structure Event where
  records : List Request
deriving DecidableEq

/-- The response dict.  `body` and `bodyEncoding` are absent (`none`) in the
responses that do not set them. -/
structure Response where
  status : ℕ
  statusDescription : String
  headers : List (String × List (String × String))
  body : Option String := none
  bodyEncoding : Option String := none
deriving DecidableEq

/-- A recorded `put_object` call: key, content type, body bytes. -/
structure PutCall where
  key : String
  contentType : String
  body : List ℕ
deriving DecidableEq

/-- Lines 16-26: the 400 response for a malformed envelope. -/
def badRequestResponse : Response :=
  { status := 400
    statusDescription := "Bad Request"
    headers := [("content-type", [("Content-Type", "text/plain")])]
    body := some "Invalid event structure: 'Records' key is missing" }

/-- Lines 96-105 and 196-204: the 301 response pointing at `/` + derived
key. -/
def redirectResponse (convKey : String) : Response :=
  { status := 301
    statusDescription := "Moved Permanently"
    headers := [("location", [("Location", "/" ++ convKey)])] }

/-- Lines 63-68: the no-transform 200 echoing the request headers. -/
def noTransformResponse (req : Request) : Response :=
  { status := 200, statusDescription := "OK", headers := req.headers }

/-! ### The handler, staged exactly along the source's control points -/

/-- Lines 87-93: `is_converted_object_exists` — `True` unless `head_object`
raises `ClientError`, in which case `False` (whatever the error code). -/
def cacheExists (store : StoreModel) (convKey : String) : Bool :=
  match store.headObject (pyUnquote convKey) with
  | .found => true
  | .clientError _ => false

/-- Lines 183-217: the size branch after encoding.  Strictly more than
`1000 * 1000` bytes: `put_object` the bytes under the URL-decoded derived key
with the original content type (re-raising a `ClientError`), then 301 to
`/` + derived key.  Otherwise: 200 with the base64-encoded body and the
original content type. -/
def finalizeResult (store : StoreModel) (convKey : String) (ctype : String)
    (data : List ℕ) : Except PyErr (Response × List PutCall) :=
  if data.length > 1000 * 1000 then
    match store.putObject (pyUnquote convKey) ctype data with
    | some code => .error (.clientError code)
    | none => .ok (redirectResponse convKey, [⟨pyUnquote convKey, ctype, data⟩])
  else
    .ok ({ status := 200
           statusDescription := "OK"
           headers := [("content-type", [("Content-Type", ctype)])]
           body := some (base64Encode data)
           bodyEncoding := some "base64" }, [])

/-- Lines 124-181: open the original image (`ZeroDivisionError` when a
dimension is 0, as in the source's ratio computation), compute the scale, the
resized dimensions (`int` truncation), the final per-axis targets (an axis
whose target was 0 follows the resize), the crop window, and encode. -/
def transformImage (pil : PILModel) (body : List ℕ) (spec : TransformSpec) :
    Except PyErr (List ℕ × String) :=
  match pil.openImage body with
  | none => .error .imageOpenError
  | some (w, h, fmt) =>
    if w = 0 then .error .zeroDivisionError
    else if h = 0 then .error .zeroDivisionError
    else
      let scale := transformScale spec.targetWidth spec.targetHeight w h
      let rw := pyInt ((w : ℚ) * scale)
      let rh := pyInt ((h : ℚ) * scale)
      let tw := if spec.targetWidth = 0 then pyInt ((w : ℚ) * scale) else spec.targetWidth
      let th := if spec.targetHeight = 0 then pyInt ((h : ℚ) * scale) else spec.targetHeight
      .ok (pil.encode body (rw, rh) (cropWindow rw rh tw th) fmt spec.targetQuality, fmt)

/-- Lines 112-217 given the fetched object: pass the body through as UTF-8
text when the content type is not JPEG/PNG, otherwise transform and branch on
the result size. -/
def serveObject (pil : PILModel) (store : StoreModel) (req : Request)
    (spec : TransformSpec) (convKey : String) (ctype : String) (body : List ℕ) :
    Except PyErr (Response × List PutCall) :=
  if ctype ∉ (["image/jpeg", "image/png"] : List String) then
    match pil.decodeUtf8 body with
    | none => .error .unicodeDecodeError
    | some text =>
      .ok ({ status := 200
             statusDescription := "OK"
             headers := req.headers
             body := some text
             bodyEncoding := some "text" }, [])
  else
    match transformImage pil body spec with
    | .error e => .error e
    | .ok (data, _) => finalizeResult store convKey ctype data

/-- Lines 107-110 then 112-217: fetch the original under the URL-decoded key
(re-raising a `ClientError`), then serve it. -/
def fetchAndServe (pil : PILModel) (store : StoreModel) (req : Request)
    (spec : TransformSpec) (convKey : String) : Except PyErr (Response × List PutCall) :=
  match store.getObject (pyUnquote (pyDrop1 req.uri)) with
  | .clientError code => .error (.clientError code)
  | .found ctype body => serveObject pil store req spec convKey ctype body

/-- Lines 63-105 after parsing: no-transform collapse, derived key
construction, cache check (redirect on hit), else fetch-and-serve. -/
def handleParsed (pil : PILModel) (store : StoreModel) (req : Request)
    (spec : TransformSpec) : Except PyErr (Response × List PutCall) :=
  if spec.targetWidth = 0 ∧ spec.targetHeight = 0 then
    .ok (noTransformResponse req, [])
  else
    let convKey := derivedKey (pyDrop1 req.uri) spec
    if cacheExists store convKey then .ok (redirectResponse convKey, [])
    else fetchAndServe pil store req spec convKey

/-- The whole `lambda_handler`: envelope check, parse (raising on a malformed
query), presets, then the staged pipeline.  The result is the response
together with the list of store writes performed. -/
def lambdaHandler (pil : PILModel) (store : StoreModel) (event : Event) :
    Except PyErr (Response × List PutCall) :=
  match event.records with
  | [] => .ok (badRequestResponse, [])
  | req :: _ =>
    match parseSpec req.querystring with
    | .error e => .error e
    | .ok spec0 => handleParsed pil store req (applyPreset spec0)

/-! ## Helper lemmas -/

theorem modifyLast_append (f : String → String) :
    ∀ (dirs : List String) (seg : String),
      modifyLast f (dirs ++ [seg]) = dirs ++ [f seg]
  | [], _ => rfl
  | [_], _ => rfl
  | d :: e :: ds, seg => by
    simp only [List.cons_append, modifyLast]
    exact congrArg _ (modifyLast_append f (e :: ds) seg)

/-- The transform tag in the shape the specification describes: height prefix
(present iff height is non-zero), then width prefix (present iff width is
non-zero), then the always-present quality suffix. -/
theorem tagOf_shape (st : TransformSpec) :
    tagOf st =
      (if st.targetHeight ≠ 0 then "h" ++ toString st.targetHeight else "") ++
      (if st.targetWidth ≠ 0 then "w" ++ toString st.targetWidth else "") ++
      ("q" ++ toString st.targetQuality ++ "_") := by
  by_cases hh : st.targetHeight = 0 <;> by_cases hw : st.targetWidth = 0 <;>
    simp [tagOf, hh, hw, String.append_assoc, String.empty_append]

/-! ## C2: derived key construction -/

/-- C2: for every non-no-transform `TransformSpec` and every original key,
the derived key is the original key with only its last path segment rewritten
by prepending the tag `h<H>` (iff height non-zero) then `w<W>` (iff width
non-zero) then `q<Q>_` (always), with all directory segments unchanged; and
the construction is deterministic in `(originalKey, TransformSpec)`. -/
theorem c2_derived_key_shape (key : String) (st : TransformSpec)
    (dirs : List String) (seg : String)
    (hnt : ¬(st.targetWidth = 0 ∧ st.targetHeight = 0))
    (hsplit : pySplit '/' key = dirs ++ [seg]) :
    derivedKey key st =
      pyJoin '/' (dirs ++
        [(if st.targetHeight ≠ 0 then "h" ++ toString st.targetHeight else "") ++
         (if st.targetWidth ≠ 0 then "w" ++ toString st.targetWidth else "") ++
         ("q" ++ toString st.targetQuality ++ "_") ++ seg]) ∧
    (∀ key2 st2, key2 = key → st2 = st → derivedKey key2 st2 = derivedKey key st) := by
  constructor
  · unfold derivedKey
    rw [hsplit, modifyLast_append, tagOf_shape, String.append_assoc, String.append_assoc,
        ← String.append_assoc, ← String.append_assoc]
  · rintro key2 st2 rfl rfl; rfl

/-- C2 witness: the end-to-end example key `photos/photo.jpg` with
`w=400&q=60` yields `photos/w400q60_photo.jpg`. -/
theorem c2_derived_key_shape_witness :
    derivedKey "photos/photo.jpg" ⟨400, 0, 60, none⟩ =
      pyJoin '/' (["photos"] ++
        [(if (⟨400, 0, 60, none⟩ : TransformSpec).targetHeight ≠ 0 then
            "h" ++ toString (⟨400, 0, 60, none⟩ : TransformSpec).targetHeight else "") ++
         (if (⟨400, 0, 60, none⟩ : TransformSpec).targetWidth ≠ 0 then
            "w" ++ toString (⟨400, 0, 60, none⟩ : TransformSpec).targetWidth else "") ++
         ("q" ++ toString (⟨400, 0, 60, none⟩ : TransformSpec).targetQuality ++ "_") ++
         "photo.jpg"]) :=
  (c2_derived_key_shape "photos/photo.jpg" ⟨400, 0, 60, none⟩ ["photos"] "photo.jpg"
    (by decide) (by decide)).1

/-! ## Parser lemmas -/

theorem toPair_error_of_len (p : String) (h : (pySplit '=' p).length ≠ 2) :
    toPair p = .error .valueError := by
  unfold toPair
  rcases hl : pySplit '=' p with _ | ⟨a, _ | ⟨b, _ | ⟨c, t⟩⟩⟩ <;> simp_all

theorem toPair_error_elim (p : String) (e : PyErr) (h : toPair p = .error e) :
    e = .valueError := by
  unfold toPair at h
  rcases hl : pySplit '=' p with _ | ⟨a, _ | ⟨b, _ | ⟨c, t⟩⟩⟩ <;> rw [hl] at h <;> simp_all

theorem toPair_ok_split {p : String} {kv : String × String} (h : toPair p = .ok kv) :
    pySplit '=' p = [kv.1, kv.2] := by
  unfold toPair at h
  rcases hl : pySplit '=' p with _ | ⟨a, _ | ⟨b, _ | ⟨c, t⟩⟩⟩ <;> rw [hl] at h <;>
    simp_all <;> simp [← h]

theorem buildPairs_error {l : List String} {p : String} (hp : p ∈ l)
    (he : toPair p = .error .valueError) : buildPairs l = .error .valueError := by
  induction l with
  | nil => cases hp
  | cons a t ih =>
    unfold buildPairs
    rcases List.mem_cons.mp hp with rfl | hmem
    · rw [he]
    · cases ha : toPair a with
      | error e => rw [toPair_error_elim a e ha]
      | ok kv => rw [ih hmem]

theorem buildPairs_shape : ∀ {l : List String} {ps : List (String × String)},
    buildPairs l = .ok ps →
    List.Forall₂ (fun p kv => pySplit '=' p = [kv.1, kv.2]) l ps := by
  intro l
  induction l with
  | nil =>
    intro ps h
    cases h
    exact List.Forall₂.nil
  | cons a t ih =>
    intro ps h
    unfold buildPairs at h
    cases ha : toPair a with
    | error e => rw [ha] at h; exact (Except.noConfusion h)
    | ok kv =>
      rw [ha] at h
      cases hb : buildPairs t with
      | error e => rw [hb] at h; exact (Except.noConfusion h)
      | ok kvs =>
        rw [hb] at h
        cases h
        exact List.Forall₂.cons (toPair_ok_split ha) (ih hb)

/-! ## C4: pair splitting on `=` -/

/-- C4 counterexample: a value that itself contains `=` is not kept intact;
the source splits on every `=` (no maxsplit), so the pair `w=1=2` splits into
three parts and the `k, v` tuple unpacking raises `ValueError` — a parse
failure, contrary to the claim. -/
theorem c4_counterexample : parseSpec "w=1=2" = .error .valueError := by decide

/-- C4 amended: each `&`-separated pair is split on every `=` (not only the
first): a pair that does not split into exactly two parts is a fatal
`ValueError`; a pair that does split into exactly two parts contributes
exactly those two parts as key and value; and unrecognized keys are
ignored. -/
theorem c4_split_all_equals :
    (∀ qs p, p ∈ pySplit '&' qs → (pySplit '=' p).length ≠ 2 →
        splitPairs qs = .error .valueError ∧
        (qs ≠ "" → parseSpec qs = .error .valueError)) ∧
    (∀ qs ps, splitPairs qs = .ok ps →
        List.Forall₂ (fun p kv => pySplit '=' p = [kv.1, kv.2]) (pySplit '&' qs) ps) ∧
    (∀ st k v, k ≠ "w" → k ≠ "h" → k ≠ "q" → k ≠ "s" → applyPair st (k, v) = .ok st) := by
  refine ⟨?_, ?_, ?_⟩
  · intro qs p hp hlen
    have herr : splitPairs qs = .error .valueError :=
      buildPairs_error hp (toPair_error_of_len p hlen)
    refine ⟨herr, fun hne => ?_⟩
    unfold parseSpec
    rw [if_neg hne, herr]
  · intro qs ps h
    exact buildPairs_shape h
  · intro st k v hw hh hq hs
    simp [applyPair, hw, hh, hq, hs]

/-- C4 witness: instantiating the amended theorem on the pair `w=1=2`. -/
theorem c4_split_all_equals_witness :
    splitPairs "w=1=2" = .error .valueError ∧ parseSpec "w=1=2" = .error .valueError := by
  have h := c4_split_all_equals.1 "w=1=2" "w=1=2" (by decide) (by decide)
  exact ⟨h.1, h.2 (by decide)⟩

/-! ## Fold invariants and last-occurrence lemmas -/

theorem pyClamp_mem (n : ℤ) : 1 ≤ pyClamp n ∧ pyClamp n ≤ 95 := by
  unfold pyClamp
  split_ifs <;> omega

theorem applyPair_quality {st st' : TransformSpec} {kv : String × String}
    (h : applyPair st kv = .ok st') (h1 : 1 ≤ st.targetQuality)
    (h2 : st.targetQuality ≤ 95) :
    1 ≤ st'.targetQuality ∧ st'.targetQuality ≤ 95 := by
  unfold applyPair at h
  split_ifs at h with hw hh hq hs
  · cases hp : pyParseInt kv.2 <;> rw [hp] at h
    · exact (Except.noConfusion h)
    · cases h; exact ⟨h1, h2⟩
  · cases hp : pyParseInt kv.2 <;> rw [hp] at h
    · exact (Except.noConfusion h)
    · cases h; exact ⟨h1, h2⟩
  · cases hp : pyParseInt kv.2 <;> rw [hp] at h
    · exact (Except.noConfusion h)
    · cases h; exact pyClamp_mem _
  · cases h; exact ⟨h1, h2⟩
  · cases h; exact ⟨h1, h2⟩

theorem foldPairs_quality : ∀ {ps : List (String × String)} {st st' : TransformSpec},
    foldPairs st ps = .ok st' → 1 ≤ st.targetQuality → st.targetQuality ≤ 95 →
    1 ≤ st'.targetQuality ∧ st'.targetQuality ≤ 95 := by
  intro ps
  induction ps with
  | nil =>
    intro st st' h h1 h2
    cases h
    exact ⟨h1, h2⟩
  | cons p t ih =>
    intro st st' h h1 h2
    unfold foldPairs at h
    cases ha : applyPair st p with
    | error e => rw [ha] at h; exact (Except.noConfusion h)
    | ok st1 =>
      rw [ha] at h
      have hq := applyPair_quality ha h1 h2
      exact ih h hq.1 hq.2

theorem applyPair_nonneg {st st' : TransformSpec} {kv : String × String}
    (h : applyPair st kv = .ok st')
    (hkv : (kv.1 = "w" ∨ kv.1 = "h") → ∀ n, pyParseInt kv.2 = some n → 0 ≤ n)
    (h1 : 0 ≤ st.targetWidth) (h2 : 0 ≤ st.targetHeight) :
    0 ≤ st'.targetWidth ∧ 0 ≤ st'.targetHeight := by
  unfold applyPair at h
  split_ifs at h with hw hh hq hs
  · cases hp : pyParseInt kv.2 <;> rw [hp] at h
    · exact (Except.noConfusion h)
    · cases h; exact ⟨hkv (Or.inl hw) _ hp, h2⟩
  · cases hp : pyParseInt kv.2 <;> rw [hp] at h
    · exact (Except.noConfusion h)
    · cases h; exact ⟨h1, hkv (Or.inr hh) _ hp⟩
  · cases hp : pyParseInt kv.2 <;> rw [hp] at h
    · exact (Except.noConfusion h)
    · cases h; exact ⟨h1, h2⟩
  · cases h; exact ⟨h1, h2⟩
  · cases h; exact ⟨h1, h2⟩

theorem foldPairs_nonneg : ∀ {ps : List (String × String)} {st st' : TransformSpec},
    foldPairs st ps = .ok st' →
    (∀ kv ∈ ps, (kv.1 = "w" ∨ kv.1 = "h") → ∀ n, pyParseInt kv.2 = some n → 0 ≤ n) →
    0 ≤ st.targetWidth → 0 ≤ st.targetHeight →
    0 ≤ st'.targetWidth ∧ 0 ≤ st'.targetHeight := by
  intro ps
  induction ps with
  | nil =>
    intro st st' h _ h1 h2
    cases h
    exact ⟨h1, h2⟩
  | cons p t ih =>
    intro st st' h hps h1 h2
    unfold foldPairs at h
    cases ha : applyPair st p with
    | error e => rw [ha] at h; exact (Except.noConfusion h)
    | ok st1 =>
      rw [ha] at h
      have hn := applyPair_nonneg ha (hps p (List.mem_cons_self p t)) h1 h2
      exact ih h (fun kv hkv => hps kv (List.mem_cons_of_mem p hkv)) hn.1 hn.2

theorem applyPreset_nonneg {st : TransformSpec} (h1 : 0 ≤ st.targetWidth)
    (h2 : 0 ≤ st.targetHeight) :
    0 ≤ (applyPreset st).targetWidth ∧ 0 ≤ (applyPreset st).targetHeight := by
  unfold applyPreset
  split_ifs with hc
  · split <;> simp_all
  · exact ⟨h1, h2⟩

/-- A single loop step leaves a field untouched unless the pair carries the
field's key (the generic preservation statement, instantiated per field). -/
theorem foldPairs_field {α : Type} (f : TransformSpec → α) (k : String)
    (hstep : ∀ st st' kv, kv.1 ≠ k → applyPair st kv = .ok st' → f st' = f st) :
    ∀ {ps : List (String × String)} {st st' : TransformSpec},
      (∀ kv ∈ ps, kv.1 ≠ k) → foldPairs st ps = .ok st' → f st' = f st := by
  intro ps
  induction ps with
  | nil =>
    intro st st' _ h
    cases h
    rfl
  | cons p t ih =>
    intro st st' hps h
    unfold foldPairs at h
    cases ha : applyPair st p with
    | error e => rw [ha] at h; exact (Except.noConfusion h)
    | ok st1 =>
      rw [ha] at h
      have h1 := hstep st st1 p (hps p (List.mem_cons_self p t)) ha
      rw [ih (fun kv hkv => hps kv (List.mem_cons_of_mem p hkv)) h, h1]

theorem applyPair_step_w {st st' : TransformSpec} {kv : String × String}
    (hk : kv.1 ≠ "w") (h : applyPair st kv = .ok st') :
    st'.targetWidth = st.targetWidth := by
  unfold applyPair at h
  rw [if_neg hk] at h
  by_cases hh : kv.1 = "h"
  · rw [if_pos hh] at h
    cases hp : pyParseInt kv.2 <;> rw [hp] at h
    · exact (Except.noConfusion h)
    · cases h; rfl
  · rw [if_neg hh] at h
    by_cases hq : kv.1 = "q"
    · rw [if_pos hq] at h
      cases hp : pyParseInt kv.2 <;> rw [hp] at h
      · exact (Except.noConfusion h)
      · cases h; rfl
    · rw [if_neg hq] at h
      by_cases hs : kv.1 = "s"
      · rw [if_pos hs] at h; cases h; rfl
      · rw [if_neg hs] at h; cases h; rfl

theorem applyPair_step_h {st st' : TransformSpec} {kv : String × String}
    (hk : kv.1 ≠ "h") (h : applyPair st kv = .ok st') :
    st'.targetHeight = st.targetHeight := by
  unfold applyPair at h
  by_cases hw : kv.1 = "w"
  · rw [if_pos hw] at h
    cases hp : pyParseInt kv.2 <;> rw [hp] at h
    · exact (Except.noConfusion h)
    · cases h; rfl
  · rw [if_neg hw, if_neg hk] at h
    by_cases hq : kv.1 = "q"
    · rw [if_pos hq] at h
      cases hp : pyParseInt kv.2 <;> rw [hp] at h
      · exact (Except.noConfusion h)
      · cases h; rfl
    · rw [if_neg hq] at h
      by_cases hs : kv.1 = "s"
      · rw [if_pos hs] at h; cases h; rfl
      · rw [if_neg hs] at h; cases h; rfl

theorem applyPair_step_q {st st' : TransformSpec} {kv : String × String}
    (hk : kv.1 ≠ "q") (h : applyPair st kv = .ok st') :
    st'.targetQuality = st.targetQuality := by
  unfold applyPair at h
  by_cases hw : kv.1 = "w"
  · rw [if_pos hw] at h
    cases hp : pyParseInt kv.2 <;> rw [hp] at h
    · exact (Except.noConfusion h)
    · cases h; rfl
  · rw [if_neg hw] at h
    by_cases hh : kv.1 = "h"
    · rw [if_pos hh] at h
      cases hp : pyParseInt kv.2 <;> rw [hp] at h
      · exact (Except.noConfusion h)
      · cases h; rfl
    · rw [if_neg hh, if_neg hk] at h
      by_cases hs : kv.1 = "s"
      · rw [if_pos hs] at h; cases h; rfl
      · rw [if_neg hs] at h; cases h; rfl

theorem applyPair_step_s {st st' : TransformSpec} {kv : String × String}
    (hk : kv.1 ≠ "s") (h : applyPair st kv = .ok st') :
    st'.targetSize = st.targetSize := by
  unfold applyPair at h
  by_cases hw : kv.1 = "w"
  · rw [if_pos hw] at h
    cases hp : pyParseInt kv.2 <;> rw [hp] at h
    · exact (Except.noConfusion h)
    · cases h; rfl
  · rw [if_neg hw] at h
    by_cases hh : kv.1 = "h"
    · rw [if_pos hh] at h
      cases hp : pyParseInt kv.2 <;> rw [hp] at h
      · exact (Except.noConfusion h)
      · cases h; rfl
    · rw [if_neg hh] at h
      by_cases hq : kv.1 = "q"
      · rw [if_pos hq] at h
        cases hp : pyParseInt kv.2 <;> rw [hp] at h
        · exact (Except.noConfusion h)
        · cases h; rfl
      · rw [if_neg hq, if_neg hk] at h; cases h; rfl

theorem foldPairs_append : ∀ (l1 l2 : List (String × String)) (st : TransformSpec),
    foldPairs st (l1 ++ l2) =
      match foldPairs st l1 with
      | .ok st' => foldPairs st' l2
      | .error e => .error e
  | [], l2, st => rfl
  | p :: t, l2, st => by
    rw [List.cons_append]
    show (match applyPair st p with
          | .ok st' => foldPairs st' (t ++ l2)
          | .error e => .error e) =
         (match (match applyPair st p with
                 | .ok st' => foldPairs st' t
                 | .error e => .error e) with
          | .ok st' => foldPairs st' l2
          | .error e => .error e)
    cases ha : applyPair st p with
    | error e => rfl
    | ok st1 => exact foldPairs_append t l2 st1

theorem foldPairs_mid {st st' : TransformSpec} {ps rest : List (String × String)}
    {kv : String × String} (h : foldPairs st (ps ++ kv :: rest) = .ok st') :
    ∃ st1 st2, applyPair st1 kv = .ok st2 ∧ foldPairs st2 rest = .ok st' := by
  rw [foldPairs_append] at h
  cases h1 : foldPairs st ps with
  | error e => rw [h1] at h; exact (Except.noConfusion h)
  | ok st1 =>
    rw [h1] at h
    unfold foldPairs at h
    cases h2 : applyPair st1 kv with
    | error e => rw [h2] at h; exact (Except.noConfusion h)
    | ok st2 => rw [h2] at h; exact ⟨st1, st2, h2, h⟩

theorem applyPair_w_eq {st st' : TransformSpec} {v : String}
    (h : applyPair st ("w", v) = .ok st') : pyParseInt v = some st'.targetWidth := by
  unfold applyPair at h
  rw [if_pos rfl] at h
  cases hp : pyParseInt v <;> rw [hp] at h
  · exact (Except.noConfusion h)
  · cases h; rfl

theorem applyPair_h_eq {st st' : TransformSpec} {v : String}
    (h : applyPair st ("h", v) = .ok st') : pyParseInt v = some st'.targetHeight := by
  unfold applyPair at h
  rw [if_neg (by decide : ¬("h" : String) = "w"), if_pos rfl] at h
  cases hp : pyParseInt v <;> rw [hp] at h
  · exact (Except.noConfusion h)
  · cases h; rfl

theorem applyPair_q_eq {st st' : TransformSpec} {v : String}
    (h : applyPair st ("q", v) = .ok st') :
    ∃ n, pyParseInt v = some n ∧ st'.targetQuality = pyClamp n := by
  unfold applyPair at h
  rw [if_neg (by decide : ¬("q" : String) = "w"),
      if_neg (by decide : ¬("q" : String) = "h"), if_pos rfl] at h
  cases hp : pyParseInt v <;> rw [hp] at h
  · exact (Except.noConfusion h)
  · cases h; exact ⟨_, rfl, rfl⟩

theorem applyPair_s_eq {st st' : TransformSpec} {v : String}
    (h : applyPair st ("s", v) = .ok st') : st'.targetSize = some v := by
  unfold applyPair at h
  rw [if_neg (by decide : ¬("s" : String) = "w"),
      if_neg (by decide : ¬("s" : String) = "h"),
      if_neg (by decide : ¬("s" : String) = "q"), if_pos rfl] at h
  cases h
  rfl

/-! ## C8: quality default and clamping -/

/-- C8: the parsed quality is always an integer in `[1, 95]`: every accepted
query string yields a quality in range; the default (empty query, or any
accepted query without a `q` pair) is 75; `q=150` saturates to 95, `q=0`
saturates to 1, and `q=50` stays 50. -/
theorem c8_quality_clamped :
    (∀ qs st, parseSpec qs = .ok st → 1 ≤ st.targetQuality ∧ st.targetQuality ≤ 95) ∧
    (parseSpec "" = .ok initSpec ∧ initSpec.targetQuality = 75) ∧
    (∀ qs ps st, splitPairs qs = .ok ps → (∀ kv ∈ ps, kv.1 ≠ "q") →
        foldPairs initSpec ps = .ok st → st.targetQuality = 75) ∧
    parseSpec "q=150" = .ok ⟨0, 0, 95, none⟩ ∧
    parseSpec "q=0" = .ok ⟨0, 0, 1, none⟩ ∧
    parseSpec "q=50" = .ok ⟨0, 0, 50, none⟩ := by
  refine ⟨?_, ⟨by decide, by decide⟩, ?_, by decide, by decide, by decide⟩
  · intro qs st h
    unfold parseSpec at h
    split_ifs at h with he
    · cases h; exact ⟨by decide, by decide⟩
    · cases hs : splitPairs qs with
      | error e => rw [hs] at h; exact (Except.noConfusion h)
      | ok ps =>
        rw [hs] at h
        exact foldPairs_quality h (by decide) (by decide)
  · intro qs ps st _ hnq h
    exact foldPairs_field (fun st => st.targetQuality) "q"
      (fun _ _ _ hk hap => applyPair_step_q hk hap) hnq h

/-- C8 witness: the in-range invariant instantiated on `q=150`. -/
theorem c8_quality_clamped_witness :
    1 ≤ (⟨0, 0, 95, none⟩ : TransformSpec).targetQuality ∧
    (⟨0, 0, 95, none⟩ : TransformSpec).targetQuality ≤ 95 :=
  c8_quality_clamped.1 "q=150" ⟨0, 0, 95, none⟩ (by decide)

/-! ## C9: sign of the parsed targets -/

/-- C9 counterexample: the parser accepts `w=-5` (Python `int("-5")`
succeeds), producing a negative target width, so the parsed spec is not
always non-negative. -/
theorem c9_counterexample :
    parseSpec "w=-5" = .ok ⟨-5, 0, 75, none⟩ ∧
    applyPreset ⟨-5, 0, 75, none⟩ = ⟨-5, 0, 75, none⟩ ∧
    (⟨-5, 0, 75, none⟩ : TransformSpec).targetWidth < 0 := by
  refine ⟨by decide, by decide, by decide⟩

/-- C9 amended: the parsed targets equal the supplied integers, which may be
negative; they are guaranteed non-negative exactly when every supplied
`w`/`h` value is non-negative (the defaults are 0 and the size presets are
positive, so those never introduce a negative value). -/
theorem c9_nonneg_when_inputs_nonneg :
    ∀ qs st, parseSpec qs = .ok st →
    (∀ ps, splitPairs qs = .ok ps →
        ∀ kv ∈ ps, (kv.1 = "w" ∨ kv.1 = "h") → ∀ n, pyParseInt kv.2 = some n → 0 ≤ n) →
    0 ≤ (applyPreset st).targetWidth ∧ 0 ≤ (applyPreset st).targetHeight := by
  intro qs st h hin
  unfold parseSpec at h
  split_ifs at h with he
  · cases h; exact ⟨by decide, by decide⟩
  · cases hs : splitPairs qs with
    | error e => rw [hs] at h; exact (Except.noConfusion h)
    | ok ps =>
      rw [hs] at h
      have hn := foldPairs_nonneg h (hin ps hs) (by decide) (by decide)
      exact applyPreset_nonneg hn.1 hn.2

/-- C9 witness: the amended theorem instantiated on `w=400`. -/
theorem c9_nonneg_when_inputs_nonneg_witness :
    0 ≤ (applyPreset ⟨400, 0, 75, none⟩).targetWidth ∧
    0 ≤ (applyPreset ⟨400, 0, 75, none⟩).targetHeight := by
  refine c9_nonneg_when_inputs_nonneg "w=400" ⟨400, 0, 75, none⟩ (by decide) ?_
  intro ps hps kv hkv _ n hn
  have h0 : splitPairs "w=400" = .ok [("w", "400")] := by decide
  rw [h0] at hps
  cases hps
  rcases List.mem_singleton.mp hkv with rfl
  have h4 : pyParseInt "400" = some 400 := by decide
  rw [h4] at hn
  cases hn
  decide

/-! ## C10: the last occurrence of a repeated key wins -/

/-- C10: pairs are processed left to right and each recognized pair
overwrites the stored value, so after a successful fold the stored value for
each of `w`, `h`, `q`, `s` is the one from its last occurrence (any pair list
prefix before it and any suffix without that key leave it intact). -/
theorem c10_last_occurrence_wins :
    (∀ st ps rest v st', foldPairs st (ps ++ ("w", v) :: rest) = .ok st' →
        (∀ kv ∈ rest, kv.1 ≠ "w") → pyParseInt v = some st'.targetWidth) ∧
    (∀ st ps rest v st', foldPairs st (ps ++ ("h", v) :: rest) = .ok st' →
        (∀ kv ∈ rest, kv.1 ≠ "h") → pyParseInt v = some st'.targetHeight) ∧
    (∀ st ps rest v st', foldPairs st (ps ++ ("q", v) :: rest) = .ok st' →
        (∀ kv ∈ rest, kv.1 ≠ "q") →
        ∃ n, pyParseInt v = some n ∧ st'.targetQuality = pyClamp n) ∧
    (∀ st ps rest v st', foldPairs st (ps ++ ("s", v) :: rest) = .ok st' →
        (∀ kv ∈ rest, kv.1 ≠ "s") → st'.targetSize = some v) := by
  refine ⟨?_, ?_, ?_, ?_⟩
  · intro st ps rest v st' h hrest
    obtain ⟨st1, st2, hap, hfold⟩ := foldPairs_mid h
    have hpres := foldPairs_field (fun st => st.targetWidth) "w"
      (fun _ _ _ hk hap2 => applyPair_step_w hk hap2) hrest hfold
    simp only at hpres
    rw [applyPair_w_eq hap, hpres]
  · intro st ps rest v st' h hrest
    obtain ⟨st1, st2, hap, hfold⟩ := foldPairs_mid h
    have hpres := foldPairs_field (fun st => st.targetHeight) "h"
      (fun _ _ _ hk hap2 => applyPair_step_h hk hap2) hrest hfold
    simp only at hpres
    rw [applyPair_h_eq hap, hpres]
  · intro st ps rest v st' h hrest
    obtain ⟨st1, st2, hap, hfold⟩ := foldPairs_mid h
    have hpres := foldPairs_field (fun st => st.targetQuality) "q"
      (fun _ _ _ hk hap2 => applyPair_step_q hk hap2) hrest hfold
    simp only at hpres
    obtain ⟨n, hn, hsetq⟩ := applyPair_q_eq hap
    exact ⟨n, hn, by rw [hpres, hsetq]⟩
  · intro st ps rest v st' h hrest
    obtain ⟨st1, st2, hap, hfold⟩ := foldPairs_mid h
    have hpres := foldPairs_field (fun st => st.targetSize) "s"
      (fun _ _ _ hk hap2 => applyPair_step_s hk hap2) hrest hfold
    simp only at hpres
    rw [hpres, applyPair_s_eq hap]

/-- C10 witness: on `w=1&w=2&h=3` the second `w` wins. -/
theorem c10_last_occurrence_wins_witness :
    foldPairs initSpec [("w", "1"), ("w", "2"), ("h", "3")] = .ok ⟨2, 3, 75, none⟩ ∧
    pyParseInt "2" = some (⟨2, 3, 75, none⟩ : TransformSpec).targetWidth := by
  refine ⟨by decide, ?_⟩
  exact c10_last_occurrence_wins.1 initSpec [("w", "1")] [("h", "3")] "2"
    ⟨2, 3, 75, none⟩ (by decide) (by decide)

/-! ## Rounding bounds -/

theorem pyRound_intCast (n : ℤ) : pyRound ((n : ℚ)) = n := by
  unfold pyRound
  simp [Int.floor_intCast]

theorem pyInt_intCast (n : ℤ) : pyInt ((n : ℚ)) = n := by
  unfold pyInt
  split_ifs with hneg
  · rw [show (-(n : ℚ)) = ((-n : ℤ) : ℚ) by push_cast; ring, Int.floor_intCast]
    omega
  · exact Int.floor_intCast n

theorem pyRound_le (x : ℚ) : (pyRound x : ℚ) ≤ x + 1/2 := by
  simp only [pyRound]
  have hfl : (⌊x⌋ : ℚ) ≤ x := Int.floor_le x
  split_ifs with h1 h2 h3 <;> push_cast <;> linarith

theorem le_pyRound (x : ℚ) : x - 1/2 ≤ (pyRound x : ℚ) := by
  simp only [pyRound]
  have hfl : x < (⌊x⌋ : ℚ) + 1 := Int.lt_floor_add_one x
  split_ifs with h1 h2 h3 <;> push_cast <;> linarith

theorem pyRound_le_zero_of_le_half {x : ℚ} (h : x ≤ 1/2) : pyRound x ≤ 0 := by
  simp only [pyRound]
  have hfl : (⌊x⌋ : ℚ) ≤ x := Int.floor_le x
  have hfl0 : ⌊x⌋ ≤ 0 := by
    have := Int.floor_le_floor (α := ℚ) h
    simpa using this.trans_eq (by norm_num)
  split_ifs with h1 h2 h3
  · exact hfl0
  · have : (⌊x⌋ : ℚ) < 0 := by linarith
    have : ⌊x⌋ < 0 := by exact_mod_cast this
    omega
  · exact hfl0
  · have hne : ⌊x⌋ ≠ 0 := by omega
    have : (⌊x⌋ : ℚ) ≤ x - 1/2 := by linarith
    have hx0 : (⌊x⌋ : ℚ) ≤ 0 := by linarith
    have : ⌊x⌋ < 0 := lt_of_le_of_ne hfl0 hne
    omega

/-! ## C6: the transform scale -/

/-- C6: for positive original dimensions and a spec with at least one
non-zero (non-negative) target, the scale equals
`min (max (tw/w) (th/h)) 1`; it never exceeds 1; and when exactly one axis
target is 0, that axis contributes quotient 0 so the constrained axis wins
the `max`. -/
theorem c6_scale_formula (tw th w h : ℤ) (hw : 0 < w) (hh : 0 < h)
    (htw : 0 ≤ tw) (hth : 0 ≤ th) (hnt : ¬(tw = 0 ∧ th = 0)) :
    transformScale tw th w h = min (max ((tw : ℚ) / (w : ℚ)) ((th : ℚ) / (h : ℚ))) 1 ∧
    transformScale tw th w h ≤ 1 ∧
    (tw = 0 → max ((tw : ℚ) / (w : ℚ)) ((th : ℚ) / (h : ℚ)) = (th : ℚ) / (h : ℚ)) ∧
    (th = 0 → max ((tw : ℚ) / (w : ℚ)) ((th : ℚ) / (h : ℚ)) = (tw : ℚ) / (w : ℚ)) := by
  have hwq : (0 : ℚ) < (w : ℚ) := by exact_mod_cast hw
  have hhq : (0 : ℚ) < (h : ℚ) := by exact_mod_cast hh
  have htwq : (0 : ℚ) ≤ (tw : ℚ) := by exact_mod_cast htw
  have hthq : (0 : ℚ) ≤ (th : ℚ) := by exact_mod_cast hth
  have heq : transformScale tw th w h =
      min (max ((tw : ℚ) / (w : ℚ)) ((th : ℚ) / (h : ℚ))) 1 := by
    unfold transformScale
    by_cases hc : max ((tw : ℚ) / (w : ℚ)) ((th : ℚ) / (h : ℚ)) > 1
    · rw [if_pos hc, min_def, if_neg (not_le.mpr hc)]
    · rw [if_neg hc, min_def, if_pos (not_lt.mp hc)]
  refine ⟨heq, ?_, ?_, ?_⟩
  · rw [heq]; exact min_le_right _ _
  · intro h0
    rw [h0]
    push_cast
    rw [zero_div]
    exact max_eq_right (div_nonneg hthq hhq.le)
  · intro h0
    rw [h0]
    push_cast
    rw [zero_div]
    exact max_eq_left (div_nonneg htwq hwq.le)

/-- C6 witness: the formula instantiated on a 100×100 original with
`w=50` (height unconstrained). -/
theorem c6_scale_formula_witness :
    transformScale 50 0 100 100 =
      min (max ((50 : ℤ) / ((100 : ℤ) : ℚ)) (((0 : ℤ) : ℚ) / ((100 : ℤ) : ℚ))) 1 ∧
    transformScale 50 0 100 100 ≤ 1 := by
  have h := c6_scale_formula 50 0 100 100 (by decide) (by decide) (by decide) (by decide)
    (by decide)
  exact ⟨h.1, h.2.1⟩

/-! ## C7: crop window bounds -/

theorem cropStart_bounds {d t : ℤ} (hd : 1 ≤ d) (ht : 0 ≤ t) :
    0 ≤ (if pyRound ((d : ℚ) / 2 - (t : ℚ) / 2) < 0 then 0
         else pyRound ((d : ℚ) / 2 - (t : ℚ) / 2)) ∧
    (if pyRound ((d : ℚ) / 2 - (t : ℚ) / 2) < 0 then 0
     else pyRound ((d : ℚ) / 2 - (t : ℚ) / 2)) ≤ d - 1 := by
  have htq : (0 : ℚ) ≤ (t : ℚ) := by exact_mod_cast ht
  have hdq : (1 : ℚ) ≤ (d : ℚ) := by exact_mod_cast hd
  have hub : pyRound ((d : ℚ) / 2 - (t : ℚ) / 2) ≤ d - 1 := by
    rcases lt_or_ge d 2 with h2 | h2
    · have hd1 : d = 1 := by omega
      subst hd1
      have := pyRound_le_zero_of_le_half
        (x := (1 : ℚ) / 2 - (t : ℚ) / 2) (by push_cast; linarith)
      simpa using this
    · have h2q : (2 : ℚ) ≤ (d : ℚ) := by exact_mod_cast h2
      have hle := pyRound_le ((d : ℚ) / 2 - (t : ℚ) / 2)
      have : (pyRound ((d : ℚ) / 2 - (t : ℚ) / 2) : ℚ) < (d : ℚ) := by linarith
      have : pyRound ((d : ℚ) / 2 - (t : ℚ) / 2) < d := by exact_mod_cast this
      omega
  constructor
  · split_ifs with hneg
    · exact le_refl 0
    · omega
  · split_ifs with hneg
    · omega
    · exact hub

theorem cropEnd_bounds {d t : ℤ} (hd : 1 ≤ d) (ht : 0 ≤ t) :
    0 ≤ (if pyRound ((d : ℚ) / 2 + (t : ℚ) / 2) ≥ d then d - 1
         else pyRound ((d : ℚ) / 2 + (t : ℚ) / 2)) ∧
    (if pyRound ((d : ℚ) / 2 + (t : ℚ) / 2) ≥ d then d - 1
     else pyRound ((d : ℚ) / 2 + (t : ℚ) / 2)) ≤ d - 1 := by
  have htq : (0 : ℚ) ≤ (t : ℚ) := by exact_mod_cast ht
  have hdq : (1 : ℚ) ≤ (d : ℚ) := by exact_mod_cast hd
  have hlb : 0 ≤ pyRound ((d : ℚ) / 2 + (t : ℚ) / 2) := by
    have hle := le_pyRound ((d : ℚ) / 2 + (t : ℚ) / 2)
    have : (0 : ℚ) ≤ (pyRound ((d : ℚ) / 2 + (t : ℚ) / 2) : ℚ) := by linarith
    exact_mod_cast this
  constructor
  · split_ifs with hge
    · omega
    · exact hlb
  · split_ifs with hge
    · exact le_refl (d - 1)
    · omega

/-- C7 counterexample: the crop window is not always in range.  The parser
accepts `w=-2000&h=10`; on a 1000×1000 original this spec scales by `1/100`
(the negative axis loses the `max`), giving a 10×10 resized image, and the
crop window computation then produces `end_x = -995` (negative: the high
bound is only clamped downward, never upward) and `start_x = 1005` (at or
past the resized dimension: the low bound is only clamped upward). -/
theorem c7_counterexample :
    parseSpec "w=-2000&h=10" = .ok ⟨-2000, 10, 75, none⟩ ∧
    transformScale (-2000) 10 1000 1000 = 1/100 ∧
    pyInt ((1000 : ℚ) * (1/100)) = 10 ∧
    cropWindow 10 10 (-2000) 10 = (1005, 0, -995, 9) ∧
    ((-995 : ℤ) < 0 ∧ (10 : ℤ) ≤ 1005) := by
  refine ⟨by decide, ?_, ?_, ?_, by decide, by decide⟩
  · unfold transformScale
    norm_num
  · rw [show (1000 : ℚ) * (1/100) = ((10 : ℤ) : ℚ) by norm_num, pyInt_intCast]
  · have h1 : ((10:ℤ):ℚ)/2 - ((-2000:ℤ):ℚ)/2 = ((1005 : ℤ) : ℚ) := by norm_num
    have h2 : ((10:ℤ):ℚ)/2 + ((-2000:ℤ):ℚ)/2 = ((-995 : ℤ) : ℚ) := by norm_num
    have h3 : ((10:ℤ):ℚ)/2 - ((10:ℤ):ℚ)/2 = ((0 : ℤ) : ℚ) := by norm_num
    have h4 : ((10:ℤ):ℚ)/2 + ((10:ℤ):ℚ)/2 = ((10 : ℤ) : ℚ) := by norm_num
    simp only [cropWindow, h1, h2, h3, h4, pyRound_intCast]
    norm_num

/-- C7 amended: for non-negative final targets (the spec's stated domain for
a `TransformSpec`) and positive resized dimensions, the clamping does keep
every crop coordinate in range: low bounds at least 0, high bounds at most
`dimension - 1`, nothing reaches the resized dimension; and the claim's
concrete 1000×1000 original with requested 2000×2000 clamps the scale to 1.0
and the window to `[0, 999]` on both axes. -/
theorem c7_crop_bounds (rw rh tw th : ℤ) (hrw : 1 ≤ rw) (hrh : 1 ≤ rh)
    (htw : 0 ≤ tw) (hth : 0 ≤ th) :
    (0 ≤ (cropWindow rw rh tw th).1 ∧ (cropWindow rw rh tw th).1 ≤ rw - 1) ∧
    (0 ≤ (cropWindow rw rh tw th).2.1 ∧ (cropWindow rw rh tw th).2.1 ≤ rh - 1) ∧
    (0 ≤ (cropWindow rw rh tw th).2.2.1 ∧ (cropWindow rw rh tw th).2.2.1 ≤ rw - 1) ∧
    (0 ≤ (cropWindow rw rh tw th).2.2.2 ∧ (cropWindow rw rh tw th).2.2.2 ≤ rh - 1) ∧
    transformScale 2000 2000 1000 1000 = 1 ∧
    cropWindow 1000 1000 2000 2000 = (0, 0, 999, 999) := by
  refine ⟨cropStart_bounds hrw htw, cropStart_bounds hrh hth,
          cropEnd_bounds hrw htw, cropEnd_bounds hrh hth, ?_, ?_⟩
  · unfold transformScale
    norm_num
  · have h1 : ((1000:ℤ):ℚ)/2 - ((2000:ℤ):ℚ)/2 = ((-500 : ℤ) : ℚ) := by norm_num
    have h2 : ((1000:ℤ):ℚ)/2 + ((2000:ℤ):ℚ)/2 = ((1500 : ℤ) : ℚ) := by norm_num
    simp only [cropWindow, h1, h2, pyRound_intCast]
    norm_num

/-- C7 witness: the amended bounds instantiated on the claim's own example,
a 1000×1000 resized image with final targets 2000×2000. -/
theorem c7_crop_bounds_witness :
    0 ≤ (cropWindow 1000 1000 2000 2000).1 ∧
    (cropWindow 1000 1000 2000 2000).1 ≤ 1000 - 1 :=
  (c7_crop_bounds 1000 1000 2000 2000 (by decide) (by decide) (by decide) (by decide)).1

/-! ## Concrete collaborator fixtures for the handler-level claims -/

/-- A PIL model whose codec is constant: decoding always yields a 100×100
JPEG and encoding always yields the single byte `[7]` (so handler-level facts
do not depend on codec internals). -/
def pilConst : PILModel :=
  ⟨fun _ => some (100, 100, "JPEG"), fun _ _ _ _ _ => [7], fun _ => some "hi"⟩

/-- A store whose `head_object` always raises `ClientError` with code
`AccessDenied` (a transport failure, not a missing key), while `get_object`
succeeds with a JPEG and `put_object` succeeds. -/
def storeDenied : StoreModel :=
  ⟨fun _ => .clientError "AccessDenied", fun _ => .found "image/jpeg" [1, 2, 3],
   fun _ _ _ => none⟩

/-- A store where the derived key is absent (`404`) and the original is a
(non-image) PDF whose bytes decode as the UTF-8 text `hi`. -/
def storePdf : StoreModel :=
  ⟨fun _ => .clientError "404", fun _ => .found "application/pdf" [104, 105],
   fun _ _ _ => none⟩

/-- A store where the derived key is absent and every operation succeeds. -/
def storeOk : StoreModel :=
  ⟨fun _ => .clientError "404", fun _ => .found "image/jpeg" [], fun _ _ _ => none⟩

/-- A request for `/photos/cat.jpg` with query `w=50`. -/
def reqCat : Request := ⟨"/photos/cat.jpg", "w=50", []⟩

/-- A request for `/docs/file.pdf` with query `w=100` and no headers. -/
def reqPdf : Request := ⟨"/docs/file.pdf", "w=100", []⟩

/-! ## C1: behaviour of the cache lookup on store failures -/

/-- C1 counterexample: a head-check failure other than "not found" is NOT
surfaced as a fatal error.  With `head_object` raising `ClientError` code
`AccessDenied` (not a not-found code), the handler still proceeds to fetch
and transform the original and answers 200 with the transformed body — the
`except ClientError` at the cache check swallows every client error alike. -/
theorem c1_counterexample :
    storeDenied.headObject
        (pyUnquote (derivedKey (pyDrop1 reqCat.uri) ⟨50, 0, 75, none⟩)) =
      .clientError "AccessDenied" ∧
    ("AccessDenied" ≠ "404" ∧ "AccessDenied" ≠ "NoSuchKey") ∧
    lambdaHandler pilConst storeDenied ⟨[reqCat]⟩ =
      .ok ({ status := 200, statusDescription := "OK",
             headers := [("content-type", [("Content-Type", "image/jpeg")])],
             body := some (base64Encode [7]), bodyEncoding := some "base64" }, []) := by
  refine ⟨rfl, ⟨by decide, by decide⟩, by decide⟩

/-- C1 amended: every `ClientError` raised by the head check — whatever its
error code, not-found and transport errors alike — is treated as a cache miss,
and the handler proceeds to fetch and transform the original instead of
failing. -/
theorem c1_any_client_error_is_cache_miss (pil : PILModel) (store : StoreModel)
    (req : Request) (spec : TransformSpec) (code : String)
    (hnt : ¬(spec.targetWidth = 0 ∧ spec.targetHeight = 0))
    (hhead : store.headObject (pyUnquote (derivedKey (pyDrop1 req.uri) spec)) =
      .clientError code) :
    handleParsed pil store req spec =
      fetchAndServe pil store req spec (derivedKey (pyDrop1 req.uri) spec) := by
  unfold handleParsed
  rw [if_neg hnt]
  have hce : cacheExists store (derivedKey (pyDrop1 req.uri) spec) = false := by
    unfold cacheExists
    rw [hhead]
  simp [hce]

/-- C1 witness: the amended theorem at the `AccessDenied` fixture. -/
theorem c1_any_client_error_is_cache_miss_witness :
    handleParsed pilConst storeDenied reqCat ⟨50, 0, 75, none⟩ =
      fetchAndServe pilConst storeDenied reqCat ⟨50, 0, 75, none⟩
        (derivedKey (pyDrop1 reqCat.uri) ⟨50, 0, 75, none⟩) :=
  c1_any_client_error_is_cache_miss pilConst storeDenied reqCat ⟨50, 0, 75, none⟩
    "AccessDenied" (by decide) rfl

/-! ## C3: the 1,000,000-byte response threshold -/

/-- C3: the branch after encoding compares the byte length strictly with
`1000 * 1000`: at most 1,000,000 bytes (in particular exactly 1,000,000) is
answered inline as a 200 with the base64-encoded body and the original
content type and no store write; strictly more (1,000,001 and up) is written
to the store under the (URL-decoded) derived key with the original content
type and answered 301 with location `/` + derived key. -/
theorem c3_size_threshold (store : StoreModel) (convKey ctype : String)
    (data : List ℕ) :
    (data.length ≤ 1000 * 1000 →
      finalizeResult store convKey ctype data =
        .ok ({ status := 200, statusDescription := "OK",
               headers := [("content-type", [("Content-Type", ctype)])],
               body := some (base64Encode data), bodyEncoding := some "base64" }, [])) ∧
    (1000 * 1000 < data.length →
      store.putObject (pyUnquote convKey) ctype data = none →
      finalizeResult store convKey ctype data =
        .ok ({ status := 301, statusDescription := "Moved Permanently",
               headers := [("location", [("Location", "/" ++ convKey)])] },
             [⟨pyUnquote convKey, ctype, data⟩])) := by
  constructor
  · intro hle
    unfold finalizeResult
    rw [if_neg (by omega : ¬data.length > 1000 * 1000)]
  · intro hgt hput
    unfold finalizeResult
    rw [if_pos hgt, hput]
    rfl

/-- C3 witness: both sides of the boundary — exactly 1,000,000 bytes goes
inline, 1,000,001 bytes goes to the store and redirects. -/
theorem c3_size_threshold_witness :
    ((List.replicate (1000 * 1000) 0).length ≤ 1000 * 1000 ∧
     finalizeResult storeOk "k" "image/jpeg" (List.replicate (1000 * 1000) 0) =
       .ok ({ status := 200, statusDescription := "OK",
              headers := [("content-type", [("Content-Type", "image/jpeg")])],
              body := some (base64Encode (List.replicate (1000 * 1000) 0)),
              bodyEncoding := some "base64" }, [])) ∧
    (1000 * 1000 < (List.replicate (1000 * 1000 + 1) 0).length ∧
     finalizeResult storeOk "k" "image/jpeg" (List.replicate (1000 * 1000 + 1) 0) =
       .ok ({ status := 301, statusDescription := "Moved Permanently",
              headers := [("location", [("Location", "/" ++ "k")])] },
            [⟨pyUnquote "k", "image/jpeg", List.replicate (1000 * 1000 + 1) 0⟩])) := by
  have hlen1 : (List.replicate (1000 * 1000) (0 : ℕ)).length ≤ 1000 * 1000 := by
    rw [List.length_replicate]
  have hlen2 : 1000 * 1000 < (List.replicate (1000 * 1000 + 1) (0 : ℕ)).length := by
    rw [List.length_replicate]
    omega
  exact ⟨⟨hlen1, (c3_size_threshold storeOk "k" "image/jpeg" _).1 hlen1⟩,
         ⟨hlen2, (c3_size_threshold storeOk "k" "image/jpeg" _).2 hlen2 rfl⟩⟩

/-! ## C5: the pass-through branch for non-JPEG/PNG content -/

/-- C5 counterexample: the pass-through response does not carry the original
object's content type.  For a fetched `application/pdf` object and a request
with an empty header map, the 200 response echoes the request's (empty)
headers — no header carries `application/pdf` anywhere. -/
theorem c5_counterexample :
    storePdf.getObject (pyUnquote (pyDrop1 reqPdf.uri)) =
      .found "application/pdf" [104, 105] ∧
    lambdaHandler pilConst storePdf ⟨[reqPdf]⟩ =
      .ok ({ status := 200, statusDescription := "OK", headers := [],
             body := some "hi", bodyEncoding := some "text" }, []) ∧
    (([] : List (String × List (String × String))).any
        (fun kv => kv.2.any (fun p => p.2 = "application/pdf"))) = false := by
  refine ⟨rfl, by decide, by decide⟩

/-- C5 amended: for every fetched object whose content type is neither
`image/jpeg` nor `image/png`, the handler responds 200 with the object's
bytes decoded as UTF-8 (`bodyEncoding` "text"), echoing the request's headers
(the object's content type is not attached), and performs no resize, crop,
re-encode or store write. -/
theorem c5_passthrough_echoes_request_headers (pil : PILModel) (store : StoreModel)
    (req : Request) (spec : TransformSpec) (convKey ctype : String)
    (body : List ℕ) (text : String)
    (hct : ctype ∉ (["image/jpeg", "image/png"] : List String))
    (hdec : pil.decodeUtf8 body = some text) :
    serveObject pil store req spec convKey ctype body =
      .ok ({ status := 200, statusDescription := "OK", headers := req.headers,
             body := some text, bodyEncoding := some "text" }, []) := by
  unfold serveObject
  rw [if_pos hct, hdec]

/-- C5 witness: the amended pass-through behaviour on the PDF fixture. -/
theorem c5_passthrough_echoes_request_headers_witness :
    serveObject pilConst storePdf reqPdf ⟨100, 0, 75, none⟩ "key" "application/pdf"
        [104, 105] =
      .ok ({ status := 200, statusDescription := "OK", headers := reqPdf.headers,
             body := some "hi", bodyEncoding := some "text" }, []) :=
  c5_passthrough_echoes_request_headers pilConst storePdf reqPdf ⟨100, 0, 75, none⟩
    "key" "application/pdf" [104, 105] "hi" (by decide) rfl

end LambdaFn
